import Mathlib

/-!
Verification development for the campus vehicle-gate access-control server.

The embedding models the server-side core: the storage layer
(`MemoryStorage`, the in-process map-backed implementation, and
`DrizzleStorage`, the database-backed implementation whose queries are
modelled as list operations in table order), the Express route handlers
for access verification and manual grant/deny, and the WebSocket
broadcast fan-out.

Modelling conventions:
- JavaScript `Map` objects keyed by generated id are modelled as lists in
  insertion order (`Map.set` with a fresh key appends; `Map.set` on an
  existing key replaces in place; `Array.from(map.values()).find`
  is `List.find?`).
- Generated UUIDs (`crypto.randomUUID()`) are modelled as a fresh-id
  counter `nextId` carried in the store; only freshness and equality of
  generated ids are observable in the source.
- Timestamps (`new Date()`) are modelled as a `now : Nat` parameter.
- `jsonb` metadata values are modelled by an inductive enumerating the
  object shapes the routes construct.
- Asynchronous storage calls are pure state-passing; the in-memory
  implementation never rejects, so no error monad is needed on it.
-/

namespace Campus

/-- A row of the `students` table (shared/schema.ts). Internal `id` is a
generated key, modelled as `Nat`; `studentId` is the external scanned
identifier. -/
structure Student where
  id : Nat
  studentId : String
  name : String
  rollNumber : String
  department : String
  year : String
  division : String
  contactNumber : String
  photoUrl : Option String
  isActive : Bool
  createdAt : Nat
  deriving Repr, DecidableEq

/-- A row of the `vehicles` table; `studentId` is the owning student's
internal id (foreign reference). -/
structure Vehicle where
  id : Nat
  studentId : Nat
  plateNumber : String
  vehicleType : String
  model : Option String
  color : Option String
  isActive : Bool
  createdAt : Nat
  deriving Repr, DecidableEq

/-- The jsonb metadata shapes actually constructed by the route handlers. -/
inductive Metadata where
  | confidence (value : Nat)
  | manual
  | alertTokens (studentId plateNumber : String)
  | alertTokensManual (studentId plateNumber : Option String)
  deriving Repr, DecidableEq

/-- A row of the `access_logs` table. -/
structure AccessLog where
  id : Nat
  studentId : Option Nat
  vehicleId : Option Nat
  plateNumber : Option String
  gateLocation : String
  accessStatus : String
  reason : Option String
  timestamp : Nat
  metadata : Option Metadata
  deriving Repr, DecidableEq

/-- A row of the `alerts` table. -/
structure Alert where
  id : Nat
  type : String
  severity : String
  title : String
  description : String
  gateLocation : Option String
  metadata : Option Metadata
  isRead : Bool
  createdAt : Nat
  deriving Repr, DecidableEq

/-- `StudentWithVehicle` from shared/schema.ts: a student joined with its
(optional) vehicle. -/
structure StudentWithVehicle where
  student : Student
  vehicle : Option Vehicle
  deriving Repr, DecidableEq

/-- `AccessLogWithDetails`: an access log joined with the resolved
student/vehicle for display. -/
structure AccessLogWithDetails where
  log : AccessLog
  student : Option StudentWithVehicle
  vehicle : Option Vehicle
  deriving Repr, DecidableEq

/-- The persistent store: the four tables of `MemoryStorage` (also used as
the relational content for `DrizzleStorage`), plus the fresh-id counter
modelling UUID generation. -/
structure MemStore where
  students : List Student
  vehicles : List Vehicle
  accessLogs : List AccessLog
  alerts : List Alert
  nextId : Nat
  deriving Repr, DecidableEq

/-- Result shape of `verifyStudentAndVehicle`. -/
structure VerificationResult where
  student : Option StudentWithVehicle
  vehicle : Option Vehicle
  isValid : Bool
  reason : Option String
  deriving Repr, DecidableEq

/-- Insert shape for `createAccessLog` (schema minus generated id and
timestamp). -/
structure InsertAccessLog where
  studentId : Option Nat
  vehicleId : Option Nat
  plateNumber : Option String
  gateLocation : String
  accessStatus : String
  reason : Option String
  metadata : Option Metadata
  deriving Repr, DecidableEq

/-- Insert shape for `createAlert`. -/
structure InsertAlert where
  type : String
  severity : String
  title : String
  description : String
  gateLocation : Option String
  metadata : Option Metadata
  deriving Repr, DecidableEq

namespace MemoryStorage

/-- `MemoryStorage.getStudentByStudentId`: find the first student whose
external identifier matches, joined with the first vehicle owned by it. -/
def getStudentByStudentId (st : MemStore) (studentId : String) : Option StudentWithVehicle :=
  match st.students.find? (fun s => s.studentId == studentId) with
  | none => none
  | some s => some ⟨s, st.vehicles.find? (fun v => v.studentId == s.id)⟩

/-- `MemoryStorage.getVehicleByPlate`: first vehicle with the given plate. -/
def getVehicleByPlate (st : MemStore) (plateNumber : String) : Option Vehicle :=
  st.vehicles.find? (fun v => v.plateNumber == plateNumber)

/-- `MemoryStorage.verifyStudentAndVehicle`: the four sequential,
short-circuiting checks of the verification core. -/
def verifyStudentAndVehicle (st : MemStore) (studentId plateNumber : String) : VerificationResult :=
  match getStudentByStudentId st studentId with
  | none => ⟨none, none, false, some "Student ID not found"⟩
  | some studentWithVehicle =>
    match getVehicleByPlate st plateNumber with
    | none => ⟨some studentWithVehicle, none, false, some "Vehicle not registered"⟩
    | some vehicle =>
      if vehicle.studentId != studentWithVehicle.student.id then
        ⟨some studentWithVehicle, some vehicle, false, some "Vehicle does not belong to this student"⟩
      else if !studentWithVehicle.student.isActive || !vehicle.isActive then
        ⟨some studentWithVehicle, some vehicle, false, some "Student or vehicle is inactive"⟩
      else
        ⟨some studentWithVehicle, some vehicle, true, none⟩

/-- `MemoryStorage.createAccessLog`: insert a log row under a fresh
generated id; `Map.set` with a fresh key appends in insertion order. -/
def createAccessLog (st : MemStore) (now : Nat) (logInput : InsertAccessLog) : AccessLog × MemStore :=
  let id := st.nextId
  let log : AccessLog :=
    { id := id
      studentId := logInput.studentId
      vehicleId := logInput.vehicleId
      plateNumber := logInput.plateNumber
      gateLocation := logInput.gateLocation
      accessStatus := logInput.accessStatus
      reason := logInput.reason
      timestamp := now
      metadata := logInput.metadata }
  (log, { st with accessLogs := st.accessLogs ++ [log], nextId := id + 1 })

/-- `MemoryStorage.createAlert`: insert an alert row under a fresh
generated id, unread. -/
def createAlert (st : MemStore) (now : Nat) (alertInput : InsertAlert) : Alert × MemStore :=
  let id := st.nextId
  let alert : Alert :=
    { id := id
      type := alertInput.type
      severity := alertInput.severity
      title := alertInput.title
      description := alertInput.description
      gateLocation := alertInput.gateLocation
      metadata := alertInput.metadata
      isRead := false
      createdAt := now }
  (alert, { st with alerts := st.alerts ++ [alert], nextId := id + 1 })

/-- `Map.set` on an existing key: replace the row with that id in place. -/
def setAlertById (alertsList : List Alert) (id : Nat) (a : Alert) : List Alert :=
  alertsList.map (fun x => if x.id == id then a else x)

/-- `MemoryStorage.markAlertAsRead`: if an alert with the id exists,
rewrite it with `isRead := true`; otherwise do nothing. -/
def markAlertAsRead (st : MemStore) (id : Nat) : MemStore :=
  match st.alerts.find? (fun a => a.id == id) with
  | none => st
  | some alert => { st with alerts := setAlertById st.alerts id { alert with isRead := true } }

/-- Dashboard stats structure. -/
structure DashboardStats where
  totalAccess : Nat
  granted : Nat
  denied : Nat
  activeGates : Nat
  deriving Repr, DecidableEq

/-- `MemoryStorage.getDashboardStats`: count today's log rows; the date
window (midnight today, midnight tomorrow) is passed explicitly since it
comes from the wall clock. -/
def getDashboardStats (st : MemStore) (todayStart tomorrowStart : Nat) : DashboardStats :=
  let todayLogs := st.accessLogs.filter
    (fun l => decide (todayStart ≤ l.timestamp) && decide (l.timestamp < tomorrowStart))
  let granted := (todayLogs.filter (fun l => l.accessStatus == "granted")).length
  let denied := (todayLogs.filter (fun l => l.accessStatus == "denied")).length
  { totalAccess := todayLogs.length
    granted := granted
    denied := denied
    activeGates := 2 }

end MemoryStorage

namespace DrizzleStorage

/-- One student row left-joined against the vehicles table in table
order: one joined row per matching vehicle, or a single row with a null
vehicle when none matches. -/
def leftJoinVehicles (vehiclesTable : List Vehicle) (s : Student) : List (Student × Option Vehicle) :=
  match vehiclesTable.filter (fun v => v.studentId == s.id) with
  | [] => [(s, none)]
  | vs => vs.map (fun v => (s, some v))

/-- `DrizzleStorage.getStudentByStudentId`: select from students left
join vehicles on students.id = vehicles.studentId, where
students.studentId matches, limit 1. -/
def getStudentByStudentId (st : MemStore) (studentId : String) : Option StudentWithVehicle :=
  match ((st.students.flatMap (leftJoinVehicles st.vehicles)).filter
      (fun row => row.1.studentId == studentId)).head? with
  | none => none
  | some row => some ⟨row.1, row.2⟩

/-- `DrizzleStorage.getVehicleByPlate`: select from vehicles where the
plate matches, limit 1. -/
def getVehicleByPlate (st : MemStore) (plateNumber : String) : Option Vehicle :=
  (st.vehicles.filter (fun v => v.plateNumber == plateNumber)).head?

/-- `DrizzleStorage.verifyStudentAndVehicle`: the database-backed variant
of the four sequential checks. -/
def verifyStudentAndVehicle (st : MemStore) (studentId plateNumber : String) : VerificationResult :=
  match getStudentByStudentId st studentId with
  | none => ⟨none, none, false, some "Student ID not found"⟩
  | some student =>
    match getVehicleByPlate st plateNumber with
    | none => ⟨some student, none, false, some "Vehicle not registered"⟩
    | some vehicle =>
      if vehicle.studentId != student.student.id then
        ⟨some student, some vehicle, false, some "Vehicle does not belong to this student"⟩
      else if !student.student.isActive || !vehicle.isActive then
        ⟨some student, some vehicle, false, some "Student or vehicle is inactive"⟩
      else
        ⟨some student, some vehicle, true, none⟩

end DrizzleStorage

/-! Route handlers (server/routes.ts), modelled as pure state
transitions over the in-memory store selected when no database URL is
configured. -/

/-- Body of POST /api/verify-access and /api/grant-access; absent JSON
fields are `none`. -/
structure VerifyRequest where
  studentId : Option String
  plateNumber : Option String
  gateLocation : Option String
  deriving Repr, DecidableEq

/-- Body of POST /api/deny-access. -/
structure DenyRequest where
  studentId : Option String
  plateNumber : Option String
  gateLocation : Option String
  reason : Option String
  deriving Repr, DecidableEq

/-- JavaScript falsiness of an optional string field: absent or empty. -/
def falsy : Option String → Bool
  | none => true
  | some s => s == ""

/-- JavaScript `x || d` on an optional string: the default replaces an
absent or empty value. -/
def jsOr (o : Option String) (d : String) : String :=
  match o with
  | none => d
  | some s => if s == "" then d else s

/-- WebSocket events the routes broadcast. -/
inductive WsEvent where
  | accessLogEvent (payload : AccessLogWithDetails)
  | newAlert (payload : Alert)
  | accessGranted (payload : AccessLogWithDetails)
  | accessDenied (payload : AccessLogWithDetails)
  deriving Repr, DecidableEq

/-- Observable outcome of one route invocation: HTTP status, the store
after all writes, and the broadcasts emitted in order. -/
structure RouteOutcome where
  status : Nat
  store : MemStore
  broadcasts : List WsEvent
  deriving Repr, DecidableEq

/-- POST /api/verify-access: validate presence of the three fields, run
the verification, write one access log, write an alert and broadcast it
when denied, then broadcast the joined log. -/
def verifyAccessRoute (st : MemStore) (now : Nat) (req : VerifyRequest) : RouteOutcome :=
  if falsy req.studentId || falsy req.plateNumber || falsy req.gateLocation then
    { status := 400, store := st, broadcasts := [] }
  else
    let studentId := req.studentId.getD ""
    let plateNumber := req.plateNumber.getD ""
    let gateLocation := req.gateLocation.getD ""
    let verification := MemoryStorage.verifyStudentAndVehicle st studentId plateNumber
    let accessStatus := if verification.isValid then "granted" else "denied"
    let logAndStore := MemoryStorage.createAccessLog st now
      { studentId := verification.student.map (fun sv => sv.student.id)
        vehicleId := verification.vehicle.map (fun v => v.id)
        plateNumber := some plateNumber
        gateLocation := gateLocation
        accessStatus := accessStatus
        reason := verification.reason
        metadata := some (Metadata.confidence 100) }
    let alertStep : MemStore × List WsEvent :=
      if !verification.isValid then
        let alertAndStore := MemoryStorage.createAlert logAndStore.2 now
          { type := "unauthorized_access"
            severity := "critical"
            title := "Unauthorized Access Attempt"
            description := verification.reason.getD "undefined" ++ " - Vehicle: " ++ plateNumber
            gateLocation := some gateLocation
            metadata := some (Metadata.alertTokens studentId plateNumber) }
        (alertAndStore.2, [WsEvent.newAlert alertAndStore.1])
      else (logAndStore.2, [])
    let logWithDetails : AccessLogWithDetails :=
      ⟨logAndStore.1, verification.student, verification.vehicle⟩
    { status := 200
      store := alertStep.1
      broadcasts := alertStep.2 ++ [WsEvent.accessLogEvent logWithDetails] }

/-- POST /api/grant-access: resolve best effort, write one granted log
with manual metadata, broadcast it; no alert. -/
def grantAccessRoute (st : MemStore) (now : Nat) (req : VerifyRequest) : RouteOutcome :=
  let student := match req.studentId with
    | none => none
    | some sid => MemoryStorage.getStudentByStudentId st sid
  let vehicle := match req.plateNumber with
    | none => none
    | some p => MemoryStorage.getVehicleByPlate st p
  let logAndStore := MemoryStorage.createAccessLog st now
    { studentId := student.map (fun sv => sv.student.id)
      vehicleId := vehicle.map (fun v => v.id)
      plateNumber := req.plateNumber
      gateLocation := req.gateLocation.getD ""
      accessStatus := "granted"
      reason := some "Manual approval"
      metadata := some Metadata.manual }
  let logWithDetails : AccessLogWithDetails := ⟨logAndStore.1, student, vehicle⟩
  { status := 200
    store := logAndStore.2
    broadcasts := [WsEvent.accessGranted logWithDetails] }

/-- POST /api/deny-access: resolve best effort (skipping lookup on falsy
tokens), write one denied log, always create one alert, broadcast the
denied log then the alert. -/
def denyAccessRoute (st : MemStore) (now : Nat) (req : DenyRequest) : RouteOutcome :=
  let student := if falsy req.studentId then none
    else MemoryStorage.getStudentByStudentId st (req.studentId.getD "")
  let vehicle := if falsy req.plateNumber then none
    else MemoryStorage.getVehicleByPlate st (req.plateNumber.getD "")
  let logAndStore := MemoryStorage.createAccessLog st now
    { studentId := student.map (fun sv => sv.student.id)
      vehicleId := vehicle.map (fun v => v.id)
      plateNumber := some (jsOr req.plateNumber "Unknown")
      gateLocation := req.gateLocation.getD ""
      accessStatus := "denied"
      reason := some (jsOr req.reason "Manual denial")
      metadata := some Metadata.manual }
  let alertAndStore := MemoryStorage.createAlert logAndStore.2 now
    { type := "unauthorized_access"
      severity := "critical"
      title := "Access Manually Denied"
      description := jsOr req.reason "Manual denial" ++ " - Vehicle: " ++ jsOr req.plateNumber "Unknown"
      gateLocation := req.gateLocation
      metadata := some (Metadata.alertTokensManual req.studentId req.plateNumber) }
  let logWithDetails : AccessLogWithDetails := ⟨logAndStore.1, student, vehicle⟩
  { status := 200
    store := alertAndStore.2
    broadcasts := [WsEvent.accessDenied logWithDetails, WsEvent.newAlert alertAndStore.1] }

/-- PUT /api/alerts/:id/read: mark and respond success unconditionally
(the in-memory path never rejects). -/
def markAlertReadRoute (st : MemStore) (id : Nat) : MemStore × Bool :=
  (MemoryStorage.markAlertAsRead st id, true)

/-! Broadcast fan-out (server/routes.ts, `broadcast`). -/

/-- `WebSocket.OPEN` ready-state constant. -/
def WebSocketOPEN : Nat := 1

/-- One connected WebSocket client: its transport ready state and the
messages delivered to it so far. -/
structure WSClient where
  clientId : Nat
  readyState : Nat
  received : List String
  deriving Repr, DecidableEq

/-- The message shape fanned out to observers. The payload is modelled
opaquely; serialization (`JSON.stringify`) is an external collaborator
passed as a function. -/
structure WebSocketMessage where
  type : String
  data : String
  deriving Repr, DecidableEq

/-- `broadcast`: serialize the message once, then deliver the serialized
string to every client whose transport is open, skipping others. -/
def broadcast (stringify : WebSocketMessage → String) (message : WebSocketMessage)
    (clients : List WSClient) : List WSClient :=
  let messageStr := stringify message
  clients.map (fun client =>
    if client.readyState == WebSocketOPEN then
      { client with received := client.received ++ [messageStr] }
    else client)

/-! Case equations for the verification core, shared by the theorems
below. -/

/-- An empty store, used for concrete evaluations. -/
def emptyStore : MemStore := ⟨[], [], [], [], 0⟩

theorem verify_eq_of_no_student (st : MemStore) (sid plate : String)
    (hs : MemoryStorage.getStudentByStudentId st sid = none) :
    MemoryStorage.verifyStudentAndVehicle st sid plate =
      ⟨none, none, false, some "Student ID not found"⟩ := by
  unfold MemoryStorage.verifyStudentAndVehicle
  rw [hs]

theorem verify_eq_of_no_vehicle (st : MemStore) (sid plate : String)
    (sv : StudentWithVehicle)
    (hs : MemoryStorage.getStudentByStudentId st sid = some sv)
    (hv : MemoryStorage.getVehicleByPlate st plate = none) :
    MemoryStorage.verifyStudentAndVehicle st sid plate =
      ⟨some sv, none, false, some "Vehicle not registered"⟩ := by
  unfold MemoryStorage.verifyStudentAndVehicle
  rw [hs, hv]

theorem verify_eq_of_mismatch (st : MemStore) (sid plate : String)
    (sv : StudentWithVehicle) (v : Vehicle)
    (hs : MemoryStorage.getStudentByStudentId st sid = some sv)
    (hv : MemoryStorage.getVehicleByPlate st plate = some v)
    (hne : v.studentId ≠ sv.student.id) :
    MemoryStorage.verifyStudentAndVehicle st sid plate =
      ⟨some sv, some v, false, some "Vehicle does not belong to this student"⟩ := by
  unfold MemoryStorage.verifyStudentAndVehicle
  rw [hs, hv]
  simp [hne]

theorem verify_eq_of_inactive (st : MemStore) (sid plate : String)
    (sv : StudentWithVehicle) (v : Vehicle)
    (hs : MemoryStorage.getStudentByStudentId st sid = some sv)
    (hv : MemoryStorage.getVehicleByPlate st plate = some v)
    (heq : v.studentId = sv.student.id)
    (hact : ¬(sv.student.isActive = true ∧ v.isActive = true)) :
    MemoryStorage.verifyStudentAndVehicle st sid plate =
      ⟨some sv, some v, false, some "Student or vehicle is inactive"⟩ := by
  unfold MemoryStorage.verifyStudentAndVehicle
  rw [hs, hv]
  rcases Bool.eq_false_or_eq_true sv.student.isActive with ha | ha
  · rcases Bool.eq_false_or_eq_true v.isActive with hb | hb
    · exact absurd ⟨ha, hb⟩ hact
    · simp [heq, ha, hb]
  · simp [heq, ha]

theorem verify_eq_of_valid (st : MemStore) (sid plate : String)
    (sv : StudentWithVehicle) (v : Vehicle)
    (hs : MemoryStorage.getStudentByStudentId st sid = some sv)
    (hv : MemoryStorage.getVehicleByPlate st plate = some v)
    (heq : v.studentId = sv.student.id)
    (ha : sv.student.isActive = true) (hb : v.isActive = true) :
    MemoryStorage.verifyStudentAndVehicle st sid plate =
      ⟨some sv, some v, true, none⟩ := by
  unfold MemoryStorage.verifyStudentAndVehicle
  rw [hs, hv]
  simp [heq, ha, hb]

/-- C1: the automatic verification verdict is valid iff an identity
record resolves from the token, a vehicle resolves from the plate, the
vehicle's owning reference equals the resolved identity's internal id,
and both active flags are true; each failing condition, in that fixed
order, determines the verdict and reason (an inactive unregistered
vehicle reports not-registered, not inactive), and a valid verdict
carries no reason. -/
theorem verify_verdict_iff_and_first_failing_condition (st : MemStore) (sid plate : String) :
    ((MemoryStorage.verifyStudentAndVehicle st sid plate).isValid = true ↔
      ∃ sv v, MemoryStorage.getStudentByStudentId st sid = some sv ∧
        MemoryStorage.getVehicleByPlate st plate = some v ∧
        v.studentId = sv.student.id ∧ sv.student.isActive = true ∧ v.isActive = true) ∧
    (MemoryStorage.getStudentByStudentId st sid = none →
      MemoryStorage.verifyStudentAndVehicle st sid plate =
        ⟨none, none, false, some "Student ID not found"⟩) ∧
    (∀ sv, MemoryStorage.getStudentByStudentId st sid = some sv →
      MemoryStorage.getVehicleByPlate st plate = none →
      MemoryStorage.verifyStudentAndVehicle st sid plate =
        ⟨some sv, none, false, some "Vehicle not registered"⟩) ∧
    (∀ sv v, MemoryStorage.getStudentByStudentId st sid = some sv →
      MemoryStorage.getVehicleByPlate st plate = some v →
      v.studentId ≠ sv.student.id →
      MemoryStorage.verifyStudentAndVehicle st sid plate =
        ⟨some sv, some v, false, some "Vehicle does not belong to this student"⟩) ∧
    (∀ sv v, MemoryStorage.getStudentByStudentId st sid = some sv →
      MemoryStorage.getVehicleByPlate st plate = some v →
      v.studentId = sv.student.id →
      ¬(sv.student.isActive = true ∧ v.isActive = true) →
      MemoryStorage.verifyStudentAndVehicle st sid plate =
        ⟨some sv, some v, false, some "Student or vehicle is inactive"⟩) ∧
    ((MemoryStorage.verifyStudentAndVehicle st sid plate).isValid = true →
      (MemoryStorage.verifyStudentAndVehicle st sid plate).reason = none) := by
  have main : (MemoryStorage.verifyStudentAndVehicle st sid plate).isValid = true ↔
      ∃ sv v, MemoryStorage.getStudentByStudentId st sid = some sv ∧
        MemoryStorage.getVehicleByPlate st plate = some v ∧
        v.studentId = sv.student.id ∧ sv.student.isActive = true ∧ v.isActive = true := by
    constructor
    · intro hvalid
      cases hs : MemoryStorage.getStudentByStudentId st sid with
      | none => rw [verify_eq_of_no_student st sid plate hs] at hvalid; cases hvalid
      | some sv =>
        cases hv : MemoryStorage.getVehicleByPlate st plate with
        | none => rw [verify_eq_of_no_vehicle st sid plate sv hs hv] at hvalid; cases hvalid
        | some v =>
          by_cases heq : v.studentId = sv.student.id
          · by_cases hact : sv.student.isActive = true ∧ v.isActive = true
            · exact ⟨sv, v, rfl, rfl, heq, hact.1, hact.2⟩
            · rw [verify_eq_of_inactive st sid plate sv v hs hv heq hact] at hvalid
              cases hvalid
          · rw [verify_eq_of_mismatch st sid plate sv v hs hv heq] at hvalid
            cases hvalid
    · rintro ⟨sv, v, hs, hv, heq, ha, hb⟩
      rw [verify_eq_of_valid st sid plate sv v hs hv heq ha hb]
  refine ⟨main, ?_, ?_, ?_, ?_, ?_⟩
  · intro hs; exact verify_eq_of_no_student st sid plate hs
  · intro sv hs hv; exact verify_eq_of_no_vehicle st sid plate sv hs hv
  · intro sv v hs hv hne; exact verify_eq_of_mismatch st sid plate sv v hs hv hne
  · intro sv v hs hv heq hact; exact verify_eq_of_inactive st sid plate sv v hs hv heq hact
  · intro hvalid
    rcases main.mp hvalid with ⟨sv, v, hs, hv, heq, ha, hb⟩
    rw [verify_eq_of_valid st sid plate sv v hs hv heq ha hb]

/-- Witness for C1: on the empty store the resolution fails, so the
verdict is the not-found denial. -/
theorem verify_verdict_iff_witness :
    MemoryStorage.verifyStudentAndVehicle emptyStore "S100" "ABC123" =
      ⟨none, none, false, some "Student ID not found"⟩ :=
  (verify_verdict_iff_and_first_failing_condition emptyStore "S100" "ABC123").2.1 rfl

/-- C5 counterexample: on the empty store no identity matches, and the
reason the code returns is the string "Student ID not found", not the
string "Identity not found" the claim states. -/
theorem verify_reason_string_counterexample :
    (MemoryStorage.verifyStudentAndVehicle emptyStore "S100" "ABC123").reason ≠
        some "Identity not found" ∧
      (MemoryStorage.verifyStudentAndVehicle emptyStore "S100" "ABC123").reason =
        some "Student ID not found" := by
  constructor
  · decide
  · rfl

/-- C5 amended: for every denied automatic verification the reason
string is exactly the one the code assigns to the first failing check:
"Student ID not found" when no student matches the token, "Vehicle not
registered" when no vehicle matches the plate, "Vehicle does not belong
to this student" on an ownership mismatch, and "Student or vehicle is
inactive" when either active flag is false. -/
theorem verify_reason_strings (st : MemStore) (sid plate : String) :
    (MemoryStorage.getStudentByStudentId st sid = none →
      (MemoryStorage.verifyStudentAndVehicle st sid plate).reason =
        some "Student ID not found") ∧
    (∀ sv, MemoryStorage.getStudentByStudentId st sid = some sv →
      MemoryStorage.getVehicleByPlate st plate = none →
      (MemoryStorage.verifyStudentAndVehicle st sid plate).reason =
        some "Vehicle not registered") ∧
    (∀ sv v, MemoryStorage.getStudentByStudentId st sid = some sv →
      MemoryStorage.getVehicleByPlate st plate = some v →
      v.studentId ≠ sv.student.id →
      (MemoryStorage.verifyStudentAndVehicle st sid plate).reason =
        some "Vehicle does not belong to this student") ∧
    (∀ sv v, MemoryStorage.getStudentByStudentId st sid = some sv →
      MemoryStorage.getVehicleByPlate st plate = some v →
      v.studentId = sv.student.id →
      ¬(sv.student.isActive = true ∧ v.isActive = true) →
      (MemoryStorage.verifyStudentAndVehicle st sid plate).reason =
        some "Student or vehicle is inactive") := by
  refine ⟨?_, ?_, ?_, ?_⟩
  · intro hs; rw [verify_eq_of_no_student st sid plate hs]
  · intro sv hs hv; rw [verify_eq_of_no_vehicle st sid plate sv hs hv]
  · intro sv v hs hv hne; rw [verify_eq_of_mismatch st sid plate sv v hs hv hne]
  · intro sv v hs hv heq hact; rw [verify_eq_of_inactive st sid plate sv v hs hv heq hact]

/-- Witness for the amended C5: first failing check on the empty store
yields the not-found reason. -/
theorem verify_reason_strings_witness :
    (MemoryStorage.verifyStudentAndVehicle emptyStore "S1" "P1").reason =
      some "Student ID not found" :=
  (verify_reason_strings emptyStore "S1" "P1").1 rfl

/-! Equivalence of the two storage implementations on verification. -/

theorem find?_eq_head?_filter {α : Type} (p : α → Bool) (l : List α) :
    l.find? p = (l.filter p).head? := by
  induction l with
  | nil => rfl
  | cons a l ih =>
    cases h : p a with
    | true => simp [h]
    | false =>
      rw [List.find?_cons_of_neg _ (by simp [h]), List.filter_cons, if_neg (by simp [h]), ih]

theorem drizzle_getVehicleByPlate_eq (st : MemStore) (plate : String) :
    DrizzleStorage.getVehicleByPlate st plate = MemoryStorage.getVehicleByPlate st plate := by
  unfold DrizzleStorage.getVehicleByPlate MemoryStorage.getVehicleByPlate
  rw [find?_eq_head?_filter]

theorem leftJoin_filter_of_neg (vt : List Vehicle) (sid : String) (s : Student)
    (h : (s.studentId == sid) = false) :
    (DrizzleStorage.leftJoinVehicles vt s).filter
      (fun row => row.1.studentId == sid) = [] := by
  unfold DrizzleStorage.leftJoinVehicles
  cases hf : vt.filter (fun v => v.studentId == s.id) with
  | nil => simp [h]
  | cons v vs => simp [List.filter_map, Function.comp_def, h]

theorem leftJoin_filter_of_pos (vt : List Vehicle) (sid : String) (s : Student)
    (h : (s.studentId == sid) = true) :
    ∃ tail, (DrizzleStorage.leftJoinVehicles vt s).filter
        (fun row => row.1.studentId == sid) =
      (s, vt.find? (fun v => v.studentId == s.id)) :: tail := by
  unfold DrizzleStorage.leftJoinVehicles
  rw [find?_eq_head?_filter]
  cases hf : vt.filter (fun v => v.studentId == s.id) with
  | nil => exact ⟨[], by simp [h]⟩
  | cons v vs =>
    refine ⟨(vs.map (fun v => (s, some v))).filter (fun row => row.1.studentId == sid), ?_⟩
    simp [List.filter_cons, h]

theorem joined_filter_head (vt : List Vehicle) (sid : String) (ls : List Student) :
    ((ls.flatMap (DrizzleStorage.leftJoinVehicles vt)).filter
        (fun row => row.1.studentId == sid)).head? =
      (ls.find? (fun s => s.studentId == sid)).map
        (fun s => (s, vt.find? (fun v => v.studentId == s.id))) := by
  induction ls with
  | nil => rfl
  | cons s ls ih =>
    rw [List.flatMap_cons, List.filter_append]
    cases h : s.studentId == sid with
    | false =>
      rw [leftJoin_filter_of_neg vt sid s h, List.nil_append, ih]
      simp [List.find?_cons, h]
    | true =>
      obtain ⟨tail, htail⟩ := leftJoin_filter_of_pos vt sid s h
      rw [htail, List.cons_append, List.head?_cons]
      simp [List.find?_cons, h]

theorem drizzle_getStudentByStudentId_eq (st : MemStore) (sid : String) :
    DrizzleStorage.getStudentByStudentId st sid =
      MemoryStorage.getStudentByStudentId st sid := by
  unfold DrizzleStorage.getStudentByStudentId MemoryStorage.getStudentByStudentId
  rw [joined_filter_head st.vehicles sid st.students]
  cases st.students.find? (fun s => s.studentId == sid) <;> rfl

/-- C7: the database-backed and in-memory storage implementations are
equivalent on verification: on every store content, they return the same
resolved student/vehicle, the same validity flag, and the same reason. -/
theorem drizzle_memory_verify_equivalent (st : MemStore) (sid plate : String) :
    DrizzleStorage.verifyStudentAndVehicle st sid plate =
      MemoryStorage.verifyStudentAndVehicle st sid plate := by
  unfold DrizzleStorage.verifyStudentAndVehicle MemoryStorage.verifyStudentAndVehicle
  rw [drizzle_getStudentByStudentId_eq, drizzle_getVehicleByPlate_eq]

/-! Effects of the verify-access route on the store. -/

theorem verify_reason_none_of_valid (st : MemStore) (sid plate : String)
    (h : (MemoryStorage.verifyStudentAndVehicle st sid plate).isValid = true) :
    (MemoryStorage.verifyStudentAndVehicle st sid plate).reason = none := by
  cases hs : MemoryStorage.getStudentByStudentId st sid with
  | none => rw [verify_eq_of_no_student st sid plate hs] at h; cases h
  | some sv =>
    cases hv : MemoryStorage.getVehicleByPlate st plate with
    | none => rw [verify_eq_of_no_vehicle st sid plate sv hs hv] at h; cases h
    | some v =>
      by_cases heq : v.studentId = sv.student.id
      · by_cases hact : sv.student.isActive = true ∧ v.isActive = true
        · rw [verify_eq_of_valid st sid plate sv v hs hv heq hact.1 hact.2]
        · rw [verify_eq_of_inactive st sid plate sv v hs hv heq hact] at h; cases h
      · rw [verify_eq_of_mismatch st sid plate sv v hs hv heq] at h; cases h

theorem verify_request_not_missing (sid plate gate : String)
    (hs : sid ≠ "") (hp : plate ≠ "") (hg : gate ≠ "") :
    ¬((falsy (some sid) || falsy (some plate) || falsy (some gate)) = true) := by
  simp [falsy, hs, hp, hg]

theorem verifyAccessRoute_store_effect (st : MemStore) (now : Nat) (sid plate gate : String)
    (hs : sid ≠ "") (hp : plate ≠ "") (hg : gate ≠ "") :
    ∃ log : AccessLog,
      (verifyAccessRoute st now ⟨some sid, some plate, some gate⟩).store.accessLogs =
        st.accessLogs ++ [log] ∧
      log.id = st.nextId ∧
      (verifyAccessRoute st now ⟨some sid, some plate, some gate⟩).store.students =
        st.students ∧
      (verifyAccessRoute st now ⟨some sid, some plate, some gate⟩).store.vehicles =
        st.vehicles ∧
      st.nextId < (verifyAccessRoute st now ⟨some sid, some plate, some gate⟩).store.nextId := by
  unfold verifyAccessRoute
  rw [if_neg (verify_request_not_missing sid plate gate hs hp hg)]
  dsimp only [MemoryStorage.createAccessLog, MemoryStorage.createAlert, Option.getD_some]
  by_cases hv : (MemoryStorage.verifyStudentAndVehicle st sid plate).isValid = true
  · simp only [hv, Bool.not_true, Bool.false_eq_true, if_false]
    exact ⟨_, rfl, rfl, trivial, trivial, by omega⟩
  · rw [Bool.not_eq_true] at hv
    simp only [hv, Bool.not_false, if_true]
    exact ⟨_, rfl, rfl, trivial, trivial, by omega⟩

/-- C3: when any of the three request fields is missing or empty, the
verify-access route returns 400 and produces no side effect: the store
is exactly the one before the call and nothing is broadcast (the model
returns before any lookup or write, mirroring the early return in the
handler). -/
theorem verify_missing_field_rejected (st : MemStore) (now : Nat) (req : VerifyRequest)
    (h : (falsy req.studentId || falsy req.plateNumber || falsy req.gateLocation) = true) :
    verifyAccessRoute st now req =
      { status := 400, store := st, broadcasts := [] } := by
  unfold verifyAccessRoute
  rw [if_pos h]

/-- Witness for C3: a request with no studentId is rejected without any
state change. -/
theorem verify_missing_field_rejected_witness :
    verifyAccessRoute emptyStore 0 ⟨none, some "MH12AB1234", some "Main Gate"⟩ =
      { status := 400, store := emptyStore, broadcasts := [] } :=
  verify_missing_field_rejected emptyStore 0 ⟨none, some "MH12AB1234", some "Main Gate"⟩ rfl

/-- C4: every automatic verify call that completes appends exactly one
access log entry whose status is granted iff the verdict was valid,
whose plate field is the raw plate token, whose gate location is the
supplied one, whose reason equals the verdict reason (absent on a valid
verdict), and whose metadata is the confidence-100 marker. -/
theorem verify_logs_one_entry (st : MemStore) (now : Nat) (sid plate gate : String)
    (hs : sid ≠ "") (hp : plate ≠ "") (hg : gate ≠ "") :
    ∃ log : AccessLog,
      (verifyAccessRoute st now ⟨some sid, some plate, some gate⟩).store.accessLogs =
        st.accessLogs ++ [log] ∧
      (log.accessStatus = "granted" ↔
        (MemoryStorage.verifyStudentAndVehicle st sid plate).isValid = true) ∧
      log.plateNumber = some plate ∧
      log.gateLocation = gate ∧
      log.reason = (MemoryStorage.verifyStudentAndVehicle st sid plate).reason ∧
      ((MemoryStorage.verifyStudentAndVehicle st sid plate).isValid = true →
        log.reason = none) ∧
      log.metadata = some (Metadata.confidence 100) := by
  unfold verifyAccessRoute
  rw [if_neg (verify_request_not_missing sid plate gate hs hp hg)]
  dsimp only [MemoryStorage.createAccessLog, MemoryStorage.createAlert, Option.getD_some]
  by_cases hv : (MemoryStorage.verifyStudentAndVehicle st sid plate).isValid = true
  · simp only [hv, Bool.not_true, Bool.false_eq_true, if_false, if_true]
    refine ⟨_, rfl, ?_, rfl, rfl, rfl, fun _ => ?_, rfl⟩
    · simp
    · exact verify_reason_none_of_valid st sid plate hv
  · rw [Bool.not_eq_true] at hv
    simp only [hv, Bool.not_false, if_true, Bool.false_eq_true, if_false]
    refine ⟨_, rfl, ?_, rfl, rfl, rfl, fun hvv => ?_, rfl⟩
    · simp
    · exact hvv.elim

/-- Witness for C4: one entry is appended on a concrete call. -/
theorem verify_logs_one_entry_witness :
    (verifyAccessRoute emptyStore 5 ⟨some "S1", some "P1", some "G1"⟩).store.accessLogs.length =
      emptyStore.accessLogs.length + 1 := by
  obtain ⟨log, hlog, _⟩ := verify_logs_one_entry emptyStore 5 "S1" "P1" "G1"
    (by decide) (by decide) (by decide)
  rw [hlog]
  simp

/-- C2: an alert is created exactly when a verification results in
denial: the automatic route leaves the alerts table unchanged on a valid
verdict and appends exactly one alert on an invalid one; the manual
grant route never creates an alert; the manual deny route always creates
exactly one alert, whatever its request resolved to. -/
theorem alert_iff_denied (st : MemStore) (now : Nat) (sid plate gate : String)
    (hs : sid ≠ "") (hp : plate ≠ "") (hg : gate ≠ "") :
    (((MemoryStorage.verifyStudentAndVehicle st sid plate).isValid = true →
        (verifyAccessRoute st now ⟨some sid, some plate, some gate⟩).store.alerts =
          st.alerts) ∧
      ((MemoryStorage.verifyStudentAndVehicle st sid plate).isValid = false →
        ∃ a, (verifyAccessRoute st now ⟨some sid, some plate, some gate⟩).store.alerts =
          st.alerts ++ [a])) ∧
    (∀ (st2 : MemStore) (now2 : Nat) (greq : VerifyRequest),
      (grantAccessRoute st2 now2 greq).store.alerts = st2.alerts) ∧
    (∀ (st3 : MemStore) (now3 : Nat) (dreq : DenyRequest),
      ∃ a, (denyAccessRoute st3 now3 dreq).store.alerts = st3.alerts ++ [a]) := by
  refine ⟨⟨?_, ?_⟩, ?_, ?_⟩
  · intro hv
    unfold verifyAccessRoute
    rw [if_neg (verify_request_not_missing sid plate gate hs hp hg)]
    dsimp only [MemoryStorage.createAccessLog, MemoryStorage.createAlert, Option.getD_some]
    simp only [hv, Bool.not_true, Bool.false_eq_true, if_false]
  · intro hv
    unfold verifyAccessRoute
    rw [if_neg (verify_request_not_missing sid plate gate hs hp hg)]
    dsimp only [MemoryStorage.createAccessLog, MemoryStorage.createAlert, Option.getD_some]
    simp only [hv, Bool.not_false, if_true]
    exact ⟨_, rfl⟩
  · intro st2 now2 greq
    unfold grantAccessRoute
    dsimp only [MemoryStorage.createAccessLog]
  · intro st3 now3 dreq
    unfold denyAccessRoute
    dsimp only [MemoryStorage.createAccessLog, MemoryStorage.createAlert]
    exact ⟨_, rfl⟩

/-- Witness for C2: on the empty store the automatic verification is
denied, so one alert is appended. -/
theorem alert_iff_denied_witness :
    ∃ a, (verifyAccessRoute emptyStore 0 ⟨some "S1", some "P1", some "G1"⟩).store.alerts =
      emptyStore.alerts ++ [a] :=
  ((alert_iff_denied emptyStore 0 "S1" "P1" "G1"
    (by decide) (by decide) (by decide)).1.2) rfl

/-- C8: log writes are not idempotent: two verify calls with identical
inputs on the same store append two log entries with distinct generated
ids, the second call preserving the entry of the first unchanged. -/
theorem verify_twice_two_distinct_logs (st : MemStore) (now1 now2 : Nat)
    (sid plate gate : String) (hs : sid ≠ "") (hp : plate ≠ "") (hg : gate ≠ "") :
    ∃ log1 log2 : AccessLog,
      (verifyAccessRoute st now1 ⟨some sid, some plate, some gate⟩).store.accessLogs =
        st.accessLogs ++ [log1] ∧
      (verifyAccessRoute
          (verifyAccessRoute st now1 ⟨some sid, some plate, some gate⟩).store
          now2 ⟨some sid, some plate, some gate⟩).store.accessLogs =
        st.accessLogs ++ [log1] ++ [log2] ∧
      log1.id ≠ log2.id := by
  obtain ⟨log1, h1, hid1, _, _, hlt1⟩ :=
    verifyAccessRoute_store_effect st now1 sid plate gate hs hp hg
  obtain ⟨log2, h2, hid2, _, _, _⟩ :=
    verifyAccessRoute_store_effect
      (verifyAccessRoute st now1 ⟨some sid, some plate, some gate⟩).store
      now2 sid plate gate hs hp hg
  refine ⟨log1, log2, h1, ?_, ?_⟩
  · rw [h2, h1]
  · rw [hid1, hid2]
    omega

/-- Witness for C8: two identical calls on the empty store leave two log
entries. -/
theorem verify_twice_two_distinct_logs_witness :
    (verifyAccessRoute
        (verifyAccessRoute emptyStore 0 ⟨some "S1", some "P1", some "G1"⟩).store
        1 ⟨some "S1", some "P1", some "G1"⟩).store.accessLogs.length = 2 := by
  obtain ⟨l1, l2, h1, h2, hne⟩ := verify_twice_two_distinct_logs emptyStore 0 1
    "S1" "P1" "G1" (by decide) (by decide) (by decide)
  rw [h2]
  simp [emptyStore]

/-- C6: broadcast serializes the event once and delivers that single
serialized form to exactly those observers whose transport is currently
open, silently leaving every other observer untouched; the fan-out is a
total function over the observer set, so a skipped observer causes no
error to the caller. -/
theorem broadcast_delivers_to_open_only (stringify : WebSocketMessage → String)
    (message : WebSocketMessage) (clients : List WSClient) :
    List.Forall₂ (fun c c2 =>
      (c.readyState = WebSocketOPEN →
        c2 = { c with received := c.received ++ [stringify message] }) ∧
      (c.readyState ≠ WebSocketOPEN → c2 = c))
      clients (broadcast stringify message clients) := by
  unfold broadcast
  induction clients with
  | nil => exact List.Forall₂.nil
  | cons c cs ih =>
    rw [List.map_cons]
    refine List.Forall₂.cons ⟨?_, ?_⟩ ih
    · intro h; simp [h]
    · intro h; simp [h]

/-- Elements of a list whose every member is granted or denied split
exactly into the granted ones and the denied ones. -/
theorem length_eq_granted_add_denied (l : List AccessLog)
    (h : ∀ x ∈ l, x.accessStatus = "granted" ∨ x.accessStatus = "denied") :
    l.length = (l.filter (fun x => x.accessStatus == "granted")).length +
      (l.filter (fun x => x.accessStatus == "denied")).length := by
  induction l with
  | nil => rfl
  | cons a l ih =>
    have hrest : ∀ x ∈ l, x.accessStatus = "granted" ∨ x.accessStatus = "denied" :=
      fun x hx => h x (List.mem_cons_of_mem a hx)
    have ha := h a (List.mem_cons_self a l)
    rcases ha with ha | ha <;>
      · rw [List.filter_cons, List.filter_cons]
        simp only [ha]
        simp [ih hrest]
        omega

/-- C9: getDashboardStats always reports activeGates as the constant 2,
and when every stored log status is granted or denied, the reported
total for the day equals granted plus denied. -/
theorem dashboard_stats_gates_and_total (st : MemStore) (todayStart tomorrowStart : Nat) :
    (MemoryStorage.getDashboardStats st todayStart tomorrowStart).activeGates = 2 ∧
    ((∀ l ∈ st.accessLogs, l.accessStatus = "granted" ∨ l.accessStatus = "denied") →
      (MemoryStorage.getDashboardStats st todayStart tomorrowStart).totalAccess =
        (MemoryStorage.getDashboardStats st todayStart tomorrowStart).granted +
          (MemoryStorage.getDashboardStats st todayStart tomorrowStart).denied) := by
  constructor
  · rfl
  · intro h
    unfold MemoryStorage.getDashboardStats
    dsimp only
    apply length_eq_granted_add_denied
    intro x hx
    exact h x (List.mem_of_mem_filter hx)

/-- A store with one granted and one denied log row of the day, used to
evaluate the dashboard stats claim. -/
def statsStore : MemStore :=
  { emptyStore with accessLogs :=
      [⟨0, none, none, some "P1", "G1", "granted", none, 10, none⟩,
       ⟨1, none, none, some "P2", "G1", "denied", some "Vehicle not registered", 20, none⟩] }

/-- Witness for C9: on a concrete store the total equals granted plus
denied. -/
theorem dashboard_stats_gates_and_total_witness :
    (MemoryStorage.getDashboardStats statsStore 0 100).totalAccess =
      (MemoryStorage.getDashboardStats statsStore 0 100).granted +
        (MemoryStorage.getDashboardStats statsStore 0 100).denied :=
  (dashboard_stats_gates_and_total statsStore 0 100).2 (by decide)

/-- C10: marking an alert read changes at most the isRead flag of the
alert with that id, leaves every other field of it and every other
alert, student, vehicle and log row unchanged, leaves the store
untouched when no alert has the id, and the endpoint responds success in
every case. Ids are pairwise distinct, as alerts live in a map keyed by
generated id. -/
theorem mark_alert_read_frame (st : MemStore) (id : Nat)
    (huniq : st.alerts.Pairwise (fun a b => a.id ≠ b.id)) :
    (markAlertReadRoute st id).2 = true ∧
    (markAlertReadRoute st id).1.students = st.students ∧
    (markAlertReadRoute st id).1.vehicles = st.vehicles ∧
    (markAlertReadRoute st id).1.accessLogs = st.accessLogs ∧
    (markAlertReadRoute st id).1.nextId = st.nextId ∧
    ((∀ a ∈ st.alerts, a.id ≠ id) → (markAlertReadRoute st id).1 = st) ∧
    List.Forall₂ (fun a a2 =>
      (a.id ≠ id → a2 = a) ∧
      (a.id = id → a2 = { a with isRead := true }))
      st.alerts (markAlertReadRoute st id).1.alerts := by
  unfold markAlertReadRoute MemoryStorage.markAlertAsRead
  cases hf : st.alerts.find? (fun a => a.id == id) with
  | none =>
    refine ⟨rfl, rfl, rfl, rfl, rfl, fun _ => rfl, ?_⟩
    rw [List.forall₂_same]
    intro x hx
    have hne : x.id ≠ id := by
      have := List.find?_eq_none.mp hf x hx
      simpa using this
    exact ⟨fun _ => rfl, fun heq => absurd heq hne⟩
  | some a0 =>
    have ha0mem : a0 ∈ st.alerts := List.mem_of_find?_eq_some hf
    have ha0id : a0.id = id := by
      have := List.find?_some hf
      simpa using this
    refine ⟨rfl, rfl, rfl, rfl, rfl, ?_, ?_⟩
    · intro hall
      exact absurd ha0id (hall a0 ha0mem)
    · dsimp only [MemoryStorage.setAlertById]
      rw [List.forall₂_map_right_iff, List.forall₂_same]
      intro x hx
      constructor
      · intro hne
        rw [if_neg (by simpa using hne)]
      · intro heq
        have hxa0 : x = a0 := by
          by_contra hxne
          exact (huniq.forall (fun a b hab => hab.symm) hx ha0mem hxne)
            (heq.trans ha0id.symm)
        rw [if_pos (by simpa using heq), hxa0]

/-- A store holding a single unread alert, used for concrete
evaluations. -/
def alertStore : MemStore :=
  { emptyStore with alerts :=
      [⟨0, "unauthorized_access", "critical", "Unauthorized Access Attempt",
        "Vehicle not registered - Vehicle: P1", some "G1", none, false, 3⟩] }

/-- Witness for C10: on a one-alert store, marking that alert read
responds success and leaves the log table unchanged. -/
theorem mark_alert_read_frame_witness :
    (markAlertReadRoute alertStore 0).2 = true ∧
    (markAlertReadRoute alertStore 0).1.accessLogs = alertStore.accessLogs := by
  have h := mark_alert_read_frame alertStore 0 (by simp [alertStore])
  exact ⟨h.1, h.2.2.2.1⟩

end Campus
